import Mathlib

/-!
# Verification of the quant-lab valuation logic

Shallow embedding of the pure numerical core of the repository:

* `Valuation.*` embeds `src/logic/valuation.py`
* `Engine.*` embeds `src/logic/engine.py`
* `ModelEngine.*` embeds the scoring part of `src/logic/model_engine.py`

Python floats are modelled as exact rationals (`ℚ`); Python's `round(x, 2)`
(round-half-to-even) is modelled exactly on `ℚ`.  Python `dict` results are
modelled as structures, the `None` sentinel as `Option`.
-/

set_option autoImplicit false

namespace QuantLab

/-- Python's `round` on a real number: round half to even (banker's rounding),
to an integer. -/
def round_half_even (y : ℚ) : ℤ :=
  let f := ⌊y⌋
  let r := y - f
  if r < 1/2 then f
  else if 1/2 < r then f + 1
  else if f % 2 = 0 then f else f + 1

/-- Python's `round(x, 2)`: two decimal places, ties to even. -/
def py_round2 (x : ℚ) : ℚ := (round_half_even (x * 100) : ℚ) / 100

namespace Valuation

/-! ## `calculate_synthetic_wacc` from `src/logic/valuation.py` (lines 22-80) -/

/-- Step 1 of `calculate_synthetic_wacc`: the interest coverage ratio.
`if interest_expense > 0: icr = ebit / interest_expense else: icr = 100.0`. -/
def icr_of (ebit interest_expense : ℚ) : ℚ :=
  if 0 < interest_expense then ebit / interest_expense else 100

/-- Step 2 of `calculate_synthetic_wacc`: the 14-tier spread/rating lookup
(Damodaran large-cap table), exactly the `if/elif/else` chain of
`src/logic/valuation.py` lines 33-60. -/
def spread_rating (icr : ℚ) : ℚ × String :=
  if 8.5 < icr then (0.0069, "AAA")
  else if 6.5 < icr then (0.0085, "AA")
  else if 5.5 < icr then (0.0107, "A+")
  else if 4.25 < icr then (0.0118, "A")
  else if 3.0 < icr then (0.0133, "A-")
  else if 2.5 < icr then (0.0171, "BBB")
  else if 2.25 < icr then (0.0231, "BB+")
  else if 2.0 < icr then (0.0277, "BB")
  else if 1.75 < icr then (0.0349, "B+")
  else if 1.5 < icr then (0.0416, "B")
  else if 1.25 < icr then (0.0577, "B-")
  else if 0.8 < icr then (0.0827, "CCC")
  else if 0.65 < icr then (0.1347, "CC")
  else (0.2, "D")

/-- `equity_risk_premium = 0.05` (line 67). -/
def equity_risk_premium : ℚ := 0.05

/-- `beta = 1.1  # Default beta` (line 68): this variant takes no beta
argument and hard-codes the value. -/
def beta : ℚ := 1.1

/-- `cost_of_equity = risk_free_rate + (beta * equity_risk_premium)` (line 69). -/
def cost_of_equity (risk_free_rate : ℚ) : ℚ :=
  risk_free_rate + beta * equity_risk_premium

/-- `calculate_synthetic_wacc` of `src/logic/valuation.py`: returns
`(wacc, spread, icr, rating)`. -/
def calculate_synthetic_wacc (ebit interest_expense total_debt market_cap
    tax_rate risk_free_rate : ℚ) : ℚ × ℚ × ℚ × String :=
  let icr := icr_of ebit interest_expense
  let sr := spread_rating icr
  let spread := sr.1
  let rating := sr.2
  let pretax_cost_of_debt := risk_free_rate + spread
  let after_tax_cost_of_debt := pretax_cost_of_debt * (1 - tax_rate)
  let coe := cost_of_equity risk_free_rate
  let total_capital := market_cap + total_debt
  if total_capital = 0 then (0.08, spread, icr, rating)
  else
    let weight_equity := market_cap / total_capital
    let weight_debt := total_debt / total_capital
    (coe * weight_equity + after_tax_cost_of_debt * weight_debt, spread, icr, rating)

/-! ## `DamodaranGinzuValuation` from `src/logic/valuation.py` (lines 86-184)

The Python loop fills a DataFrame row by row; each column is a scalar
recurrence in the year, embedded below as a function of the year.  Year 0
stands for the current year (`rev_0`), years 1..terminal_year are projected. -/

/-- Constructor arguments / instance attributes of `DamodaranGinzuValuation`
in `src/logic/valuation.py` (with Python default `non_op_assets = 0`,
`convergence_year = 5`, `terminal_year = 10` supplied by callers). -/
structure DamodaranGinzuValuation where
  rev_0 : ℚ
  ebit_0 : ℚ
  tax_initial : ℚ
  tax_marginal : ℚ
  wacc_high : ℚ
  wacc_stable : ℚ
  g_high : ℚ
  g_stable : ℚ
  sales_to_cap : ℚ
  target_margin : ℚ
  cash : ℚ
  debt : ℚ
  minority_interests : ℚ
  shares : ℚ
  non_op_assets : ℚ
  convergence_year : ℕ
  terminal_year : ℕ

/-- Projected growth rate for a year (step 1 of the projection loop):
`g_high` until `convergence_year`, then a linear fade to `g_stable` over
`steps = terminal_year - convergence_year` years. -/
def growth (p : DamodaranGinzuValuation) (year : ℕ) : ℚ :=
  if year ≤ p.convergence_year then p.g_high
  else
    p.g_high - (p.g_high - p.g_stable) / ((p.terminal_year : ℚ) - p.convergence_year)
      * ((year : ℚ) - p.convergence_year)

/-- Projected revenue (step 2): `rev year = rev (year-1) * (1 + g year)`,
starting from `rev_0`. -/
def rev (p : DamodaranGinzuValuation) : ℕ → ℚ
  | 0 => p.rev_0
  | n + 1 => rev p n * (1 + growth p (n + 1))

/-- Projected EBIT margin (step 3): linear move from `ebit_0 / rev_0` to
`target_margin` over `terminal_year` years. -/
def margin (p : DamodaranGinzuValuation) (year : ℕ) : ℚ :=
  p.ebit_0 / p.rev_0
    + (p.target_margin - p.ebit_0 / p.rev_0) / (p.terminal_year : ℚ) * (year : ℚ)

/-- Projected EBIT (step 4). -/
def ebit (p : DamodaranGinzuValuation) (year : ℕ) : ℚ :=
  rev p year * margin p year

/-- Projected tax rate (step 4): linear fade from `tax_initial` to
`tax_marginal`. -/
def tax_rate (p : DamodaranGinzuValuation) (year : ℕ) : ℚ :=
  p.tax_initial + (p.tax_marginal - p.tax_initial) / (p.terminal_year : ℚ) * (year : ℚ)

/-- Projected EBIT after tax (the `EBIT_1_t` column). -/
def ebit_after_tax (p : DamodaranGinzuValuation) (year : ℕ) : ℚ :=
  ebit p year * (1 - tax_rate p year)

/-- Projected reinvestment (step 5): revenue change over `sales_to_cap`;
Python's `if self.sales_to_cap` truthiness guard maps a zero denominator
to reinvestment 0. -/
def reinvestment (p : DamodaranGinzuValuation) (year : ℕ) : ℚ :=
  if p.sales_to_cap ≠ 0 then (rev p year - rev p (year - 1)) / p.sales_to_cap else 0

/-- Projected free cash flow to the firm (step 6). -/
def fcff (p : DamodaranGinzuValuation) (year : ℕ) : ℚ :=
  ebit_after_tax p year - reinvestment p year

/-- Projected discount rate (step 7): `wacc_high` for years 1-5, then a
linear fade to `wacc_stable` over 5 years. -/
def wacc (p : DamodaranGinzuValuation) (year : ℕ) : ℚ :=
  if year ≤ 5 then p.wacc_high
  else p.wacc_high - (p.wacc_high - p.wacc_stable) / 5 * ((year : ℚ) - 5)

/-- Cumulative discount factor of the discounting loop:
`cum_discount /= (1 + wacc year)` starting from 1. -/
def cum_discount (p : DamodaranGinzuValuation) : ℕ → ℚ
  | 0 => 1
  | n + 1 => cum_discount p n / (1 + wacc p (n + 1))

/-- Running sum of `PV_FCFF` over the first `n` projected years
(`df['PV_FCFF'].sum()` of the first `n` rows). -/
def pv_fcff_sum (p : DamodaranGinzuValuation) : ℕ → ℚ
  | 0 => 0
  | n + 1 => pv_fcff_sum p n + fcff p (n + 1) * cum_discount p (n + 1)

/-- `stable_reinv_rate = g_stable / wacc_stable` (line 168). -/
def stable_reinv_rate (p : DamodaranGinzuValuation) : ℚ :=
  p.g_stable / p.wacc_stable

/-- `terminal_fcff = EBIT_1_t[terminal_year] * (1 + g_stable) * (1 - stable_reinv_rate)`
(lines 169-170). -/
def terminal_fcff (p : DamodaranGinzuValuation) : ℚ :=
  ebit_after_tax p p.terminal_year * (1 + p.g_stable) * (1 - stable_reinv_rate p)

/-- `terminal_value = terminal_fcff / (wacc_stable - g_stable)` (line 172):
the division is performed directly, with no epsilon guard on the
denominator. -/
def terminal_value (p : DamodaranGinzuValuation) : ℚ :=
  terminal_fcff p / (p.wacc_stable - p.g_stable)

/-- `pv_terminal_value = terminal_value * Cum_Discount_Factor[terminal_year]`
(line 173). -/
def pv_terminal_value (p : DamodaranGinzuValuation) : ℚ :=
  terminal_value p * cum_discount p p.terminal_year

/-- `equity_value` (lines 175-176). -/
def equity_value (p : DamodaranGinzuValuation) : ℚ :=
  pv_fcff_sum p p.terminal_year + pv_terminal_value p
    + p.cash + p.non_op_assets - p.debt - p.minority_interests

/-- `value_per_share = equity_value / shares if shares else 0` (line 177):
Python truthiness, so `shares = 0` yields 0 (no division and no `None`). -/
def value_per_share (p : DamodaranGinzuValuation) : ℚ :=
  if p.shares ≠ 0 then equity_value p / p.shares else 0

/-- The result `dict` of `run_valuation` (lines 179-184). -/
structure ValuationResult where
  Value_Per_Share : ℚ
  Equity_Value_B : ℚ
  WACC_Initial : ℚ
  Stable_WACC : ℚ
  deriving DecidableEq

/-- `run_valuation` of `src/logic/valuation.py`: returns `None` iff
`rev_0 ≤ 0` (line 113); there is no check on `shares`. -/
def run_valuation (p : DamodaranGinzuValuation) : Option ValuationResult :=
  if p.rev_0 ≤ 0 then none
  else some
    { Value_Per_Share := py_round2 (value_per_share p)
      Equity_Value_B := py_round2 (equity_value p / 1000000000)
      WACC_Initial := py_round2 (p.wacc_high * 100)
      Stable_WACC := py_round2 (p.wacc_stable * 100) }

end Valuation

namespace Engine

/-! ## `calculate_synthetic_wacc` from `src/logic/engine.py` (lines 23-69) -/

/-- ICR computation of `src/logic/engine.py` lines 25-28 (identical to the
`valuation.py` variant). -/
def icr_of (ebit interest_expense : ℚ) : ℚ :=
  if 0 < interest_expense then ebit / interest_expense else 100

/-- The 13-tier spread/rating lookup of `src/logic/engine.py` lines 31-56:
same chain as `valuation.py` but without the `CC` tier, so everything at or
below an ICR of 0.8 is rated `D`. -/
def spread_rating (icr : ℚ) : ℚ × String :=
  if 8.5 < icr then (0.0069, "AAA")
  else if 6.5 < icr then (0.0085, "AA")
  else if 5.5 < icr then (0.0107, "A+")
  else if 4.25 < icr then (0.0118, "A")
  else if 3.0 < icr then (0.0133, "A-")
  else if 2.5 < icr then (0.0171, "BBB")
  else if 2.25 < icr then (0.0231, "BB+")
  else if 2.0 < icr then (0.0277, "BB")
  else if 1.75 < icr then (0.0349, "B+")
  else if 1.5 < icr then (0.0416, "B")
  else if 1.25 < icr then (0.0577, "B-")
  else if 0.8 < icr then (0.0827, "CCC")
  else (0.2, "D")

/-- `calculate_synthetic_wacc` of `src/logic/engine.py`: same structure as
the `valuation.py` variant but `beta` is an argument. -/
def calculate_synthetic_wacc (ebit interest_expense total_debt market_cap
    tax_rate risk_free_rate beta : ℚ) : ℚ × ℚ × ℚ × String :=
  let icr := icr_of ebit interest_expense
  let sr := spread_rating icr
  let spread := sr.1
  let rating := sr.2
  let pretax_cost_of_debt := risk_free_rate + spread
  let after_tax_cost_of_debt := pretax_cost_of_debt * (1 - tax_rate)
  let equity_risk_premium : ℚ := 0.05
  let coe := risk_free_rate + beta * equity_risk_premium
  let total_capital := market_cap + total_debt
  if total_capital = 0 then (0.08, spread, icr, rating)
  else
    (coe * (market_cap / total_capital)
      + after_tax_cost_of_debt * (total_debt / total_capital), spread, icr, rating)

/-! ## `DamodaranGinzuValuation` from `src/logic/engine.py` (lines 72-150)

Same model, but: no `tax_rate_marginal` parameter (the tax rate fades to a
hard-coded 0.25), no `minority_interests` / `non_op_assets`, the horizon is
fixed at `terminal_year = 10` with growth fading after year 5, reinvestment
divides by `sales_to_cap` unconditionally, and the result is the bare
(unrounded) value per share. -/

/-- Constructor arguments / instance attributes of `DamodaranGinzuValuation`
in `src/logic/engine.py`. -/
structure DamodaranGinzuValuation where
  rev_0 : ℚ
  ebit_0 : ℚ
  tax_initial : ℚ
  wacc_high : ℚ
  wacc_stable : ℚ
  g_high : ℚ
  g_stable : ℚ
  sales_to_cap : ℚ
  target_margin : ℚ
  cash : ℚ
  debt : ℚ
  shares : ℚ

/-- Growth rate (lines 107-110): `g_high` for years 1-5, then a linear fade
to `g_stable` over 5 years. -/
def growth (p : DamodaranGinzuValuation) (year : ℕ) : ℚ :=
  if year ≤ 5 then p.g_high
  else p.g_high - (p.g_high - p.g_stable) / 5 * ((year : ℚ) - 5)

/-- Revenue recurrence (lines 112-113). -/
def rev (p : DamodaranGinzuValuation) : ℕ → ℚ
  | 0 => p.rev_0
  | n + 1 => rev p n * (1 + growth p (n + 1))

/-- Margin (lines 116-118): linear move from `ebit_0 / rev_0` to
`target_margin` over 10 years. -/
def margin (p : DamodaranGinzuValuation) (year : ℕ) : ℚ :=
  p.ebit_0 / p.rev_0 + (p.target_margin - p.ebit_0 / p.rev_0) / 10 * (year : ℚ)

/-- EBIT (line 120). -/
def ebit (p : DamodaranGinzuValuation) (year : ℕ) : ℚ :=
  rev p year * margin p year

/-- Tax rate (line 123): linear fade from `tax_initial` to the hard-coded
0.25 over 10 years. -/
def tax_rate (p : DamodaranGinzuValuation) (year : ℕ) : ℚ :=
  p.tax_initial + (0.25 - p.tax_initial) / 10 * (year : ℚ)

/-- EBIT after tax (line 124). -/
def ebit_after_tax (p : DamodaranGinzuValuation) (year : ℕ) : ℚ :=
  ebit p year * (1 - tax_rate p year)

/-- Reinvestment (line 127): unconditional division by `sales_to_cap`. -/
def reinvestment (p : DamodaranGinzuValuation) (year : ℕ) : ℚ :=
  (rev p year - rev p (year - 1)) / p.sales_to_cap

/-- FCFF (line 128). -/
def fcff (p : DamodaranGinzuValuation) (year : ℕ) : ℚ :=
  ebit_after_tax p year - reinvestment p year

/-- WACC (lines 131-134): `wacc_high` for years 1-5, then a linear fade to
`wacc_stable` over 5 years. -/
def wacc (p : DamodaranGinzuValuation) (year : ℕ) : ℚ :=
  if year ≤ 5 then p.wacc_high
  else p.wacc_high - (p.wacc_high - p.wacc_stable) / 5 * ((year : ℚ) - 5)

/-- `cum_discount /= (1 + wacc)` (line 136), starting from 1. -/
def cum_discount (p : DamodaranGinzuValuation) : ℕ → ℚ
  | 0 => 1
  | n + 1 => cum_discount p n / (1 + wacc p (n + 1))

/-- `pv_fcff_sum += fcff * cum_discount` (line 137) over the first `n`
years. -/
def pv_fcff_sum (p : DamodaranGinzuValuation) : ℕ → ℚ
  | 0 => 0
  | n + 1 => pv_fcff_sum p n + fcff p (n + 1) * cum_discount p (n + 1)

/-- `stable_reinv_rate = g_stable / wacc_stable` (line 144). -/
def stable_reinv_rate (p : DamodaranGinzuValuation) : ℚ :=
  p.g_stable / p.wacc_stable

/-- `terminal_fcff = (final_ebit_1_t * (1 + g_stable)) * (1 - stable_reinv_rate)`
(line 145), where `final_ebit_1_t` is year 10's EBIT after tax. -/
def terminal_fcff (p : DamodaranGinzuValuation) : ℚ :=
  ebit_after_tax p 10 * (1 + p.g_stable) * (1 - stable_reinv_rate p)

/-- `terminal_value = terminal_fcff / (wacc_stable - g_stable)` (line 146):
direct division, no epsilon guard. -/
def terminal_value (p : DamodaranGinzuValuation) : ℚ :=
  terminal_fcff p / (p.wacc_stable - p.g_stable)

/-- `pv_terminal = terminal_value * final_discount` (line 147), where
`final_discount` is the cumulative discount factor after year 10. -/
def pv_terminal (p : DamodaranGinzuValuation) : ℚ :=
  terminal_value p * cum_discount p 10

/-- `equity_value = (pv_fcff_sum + pv_terminal) + cash - debt` (line 149). -/
def equity_value (p : DamodaranGinzuValuation) : ℚ :=
  pv_fcff_sum p 10 + pv_terminal p + p.cash - p.debt

/-- `run_valuation` of `src/logic/engine.py`: `None` iff `rev_0 ≤ 0` or
`shares ≤ 0` (line 95), otherwise the bare value per share (line 150). -/
def run_valuation (p : DamodaranGinzuValuation) : Option ℚ :=
  if p.rev_0 ≤ 0 ∨ p.shares ≤ 0 then none
  else some (equity_value p / p.shares)

end Engine

namespace ModelEngine

/-! ## The scoring engine of `run_quant_model` in `src/logic/model_engine.py`
(lines 65-84)

Each factor score is a pandas percentile rank (`rank(pct=True) * 100`,
default `method='average'`): the rank of a value is the average of the
ordinal ranks of its tie group, divided by the number of entries.  A row of
the merged table is modelled by the three columns the scores read. -/

/-- One row of the merged fundamentals/momentum table. -/
structure Row where
  pe_ratio : ℚ
  profit_margin : ℚ
  momentum_pct : ℚ

/-- Number of entries of `xs` strictly below `v`. -/
def cnt_lt (v : ℚ) (xs : List ℚ) : ℕ :=
  (xs.filter fun x => decide (x < v)).length

/-- Number of entries of `xs` strictly above `v`. -/
def cnt_gt (v : ℚ) (xs : List ℚ) : ℕ :=
  (xs.filter fun x => decide (v < x)).length

/-- Number of entries of `xs` equal to `v`. -/
def cnt_eq (v : ℚ) (xs : List ℚ) : ℕ :=
  (xs.filter fun x => decide (x = v)).length

/-- pandas `Series.rank(ascending=True, method='average')` of `v` within
column `xs`: ranks run 1..n and a tie group gets its average rank, which is
`cnt_lt + (cnt_eq + 1) / 2`. -/
def rank_asc (v : ℚ) (xs : List ℚ) : ℚ :=
  (cnt_lt v xs : ℚ) + ((cnt_eq v xs : ℚ) + 1) / 2

/-- pandas `Series.rank(ascending=False, method='average')`. -/
def rank_desc (v : ℚ) (xs : List ℚ) : ℚ :=
  (cnt_gt v xs : ℚ) + ((cnt_eq v xs : ℚ) + 1) / 2

/-- `rank(..., pct=True)` ascending: the rank divided by the column length. -/
def rank_pct_asc (v : ℚ) (xs : List ℚ) : ℚ :=
  rank_asc v xs / (xs.length : ℚ)

/-- `rank(..., pct=True)` descending. -/
def rank_pct_desc (v : ℚ) (xs : List ℚ) : ℚ :=
  rank_desc v xs / (xs.length : ℚ)

/-- `value_score` (line 70): descending percentile rank of `pe_ratio`
(low P/E gets a high score) times 100. -/
def value_score (r : Row) (rows : List Row) : ℚ :=
  rank_pct_desc r.pe_ratio (rows.map Row.pe_ratio) * 100

/-- `quality_score` (line 73): ascending percentile rank of `profit_margin`
times 100. -/
def quality_score (r : Row) (rows : List Row) : ℚ :=
  rank_pct_asc r.profit_margin (rows.map Row.profit_margin) * 100

/-- `trend_score` (line 76): ascending percentile rank of `momentum_pct`
times 100. -/
def trend_score (r : Row) (rows : List Row) : ℚ :=
  rank_pct_asc r.momentum_pct (rows.map Row.momentum_pct) * 100

/-- `TOTAL_SCORE` (lines 80-84): the 40/40/20 weighted combination. -/
def TOTAL_SCORE (r : Row) (rows : List Row) : ℚ :=
  0.40 * value_score r rows + 0.40 * trend_score r rows + 0.20 * quality_score r rows

end ModelEngine

/-! ## Concrete inputs used to instantiate or refute the claims -/

/-- A valuation input whose projected equity value is negative: shrinking
business (EBIT margin −50%, zero growth) with a 100% discount rate, one
share outstanding. -/
def neg_equity_inputs : Valuation.DamodaranGinzuValuation :=
  { rev_0 := 100, ebit_0 := -50, tax_initial := 0, tax_marginal := 0,
    wacc_high := 1, wacc_stable := 1, g_high := 0, g_stable := 0,
    sales_to_cap := 1, target_margin := -1/2, cash := 0, debt := 0,
    minority_interests := 0, shares := 1, non_op_assets := 0,
    convergence_year := 5, terminal_year := 10 }

/-- A valuation input whose stable WACC exceeds stable growth by exactly
0.001, i.e. inside the guard band the spec describes for the terminal-value
denominator. -/
def near_flat_inputs : Valuation.DamodaranGinzuValuation :=
  { rev_0 := 100, ebit_0 := 50, tax_initial := 0, tax_marginal := 0,
    wacc_high := 1/1000, wacc_stable := 1/1000, g_high := 0, g_stable := 0,
    sales_to_cap := 1, target_margin := 1/2, cash := 0, debt := 0,
    minority_interests := 0, shares := 1, non_op_assets := 0,
    convergence_year := 5, terminal_year := 10 }

/-- A valuation input with positive revenue but zero shares outstanding. -/
def zero_shares_inputs : Valuation.DamodaranGinzuValuation :=
  { neg_equity_inputs with shares := 0 }

/-- An `engine.py` valuation input with equal high/stable growth and equal
high/stable WACC but a fading EBIT margin (10% now, 25% target). -/
def fading_margin_inputs : Engine.DamodaranGinzuValuation :=
  { rev_0 := 100, ebit_0 := 10, tax_initial := 1/4,
    wacc_high := 1, wacc_stable := 1, g_high := 0, g_stable := 0,
    sales_to_cap := 1, target_margin := 1/4, cash := 0, debt := 0, shares := 1 }

/-- An `engine.py` valuation input in the single-stage regime: equal
high/stable growth and WACC, constant margin (`target_margin = ebit_0/rev_0`)
and constant tax rate (`tax_initial = 0.25`). -/
def single_stage_inputs : Engine.DamodaranGinzuValuation :=
  { rev_0 := 100, ebit_0 := 50, tax_initial := 1/4,
    wacc_high := 1, wacc_stable := 1, g_high := 0, g_stable := 0,
    sales_to_cap := 1, target_margin := 1/2, cash := 0, debt := 0, shares := 1 }

/-- An `engine.py` input with `rev_0 > 0` but non-positive shares. -/
def engine_zero_shares_inputs : Engine.DamodaranGinzuValuation :=
  { single_stage_inputs with shares := 0 }

/-- An `engine.py` input with non-positive revenue. -/
def engine_neg_rev_inputs : Engine.DamodaranGinzuValuation :=
  { single_stage_inputs with rev_0 := -5 }

/-- A two-row scoring table for the ranking model. -/
def two_row_table : List ModelEngine.Row :=
  [{ pe_ratio := 10, profit_margin := 1/5, momentum_pct := 1/10 },
   { pe_ratio := 20, profit_margin := 1/10, momentum_pct := 3/10 }]

/-! ## Theorems -/

/-! ### Band lemmas for the spread/rating lookup tables -/

theorem Valuation.spread_rating_eq_aaa (i : ℚ) (h1 : 8.5 < i) :
    Valuation.spread_rating i = (0.0069, "AAA") := by
  unfold Valuation.spread_rating
  rw [if_pos h1]

theorem Valuation.spread_rating_eq_aa (i : ℚ) (h1 : 6.5 < i) (h2 : i ≤ 8.5) :
    Valuation.spread_rating i = (0.0085, "AA") := by
  unfold Valuation.spread_rating
  rw [if_neg (by linarith), if_pos h1]

theorem Valuation.spread_rating_eq_a_plus (i : ℚ) (h1 : 5.5 < i) (h2 : i ≤ 6.5) :
    Valuation.spread_rating i = (0.0107, "A+") := by
  unfold Valuation.spread_rating
  rw [if_neg (by linarith), if_neg (by linarith), if_pos h1]

theorem Valuation.spread_rating_eq_a (i : ℚ) (h1 : 4.25 < i) (h2 : i ≤ 5.5) :
    Valuation.spread_rating i = (0.0118, "A") := by
  unfold Valuation.spread_rating
  rw [if_neg (by linarith), if_neg (by linarith), if_neg (by linarith), if_pos h1]

theorem Valuation.spread_rating_eq_a_minus (i : ℚ) (h1 : 3.0 < i) (h2 : i ≤ 4.25) :
    Valuation.spread_rating i = (0.0133, "A-") := by
  unfold Valuation.spread_rating
  rw [if_neg (by linarith), if_neg (by linarith), if_neg (by linarith), if_neg (by linarith), if_pos h1]

theorem Valuation.spread_rating_eq_bbb (i : ℚ) (h1 : 2.5 < i) (h2 : i ≤ 3.0) :
    Valuation.spread_rating i = (0.0171, "BBB") := by
  unfold Valuation.spread_rating
  rw [if_neg (by linarith), if_neg (by linarith), if_neg (by linarith), if_neg (by linarith), if_neg (by linarith), if_pos h1]

theorem Valuation.spread_rating_eq_bb_plus (i : ℚ) (h1 : 2.25 < i) (h2 : i ≤ 2.5) :
    Valuation.spread_rating i = (0.0231, "BB+") := by
  unfold Valuation.spread_rating
  rw [if_neg (by linarith), if_neg (by linarith), if_neg (by linarith), if_neg (by linarith), if_neg (by linarith), if_neg (by linarith), if_pos h1]

theorem Valuation.spread_rating_eq_bb (i : ℚ) (h1 : 2.0 < i) (h2 : i ≤ 2.25) :
    Valuation.spread_rating i = (0.0277, "BB") := by
  unfold Valuation.spread_rating
  rw [if_neg (by linarith), if_neg (by linarith), if_neg (by linarith), if_neg (by linarith), if_neg (by linarith), if_neg (by linarith), if_neg (by linarith), if_pos h1]

theorem Valuation.spread_rating_eq_b_plus (i : ℚ) (h1 : 1.75 < i) (h2 : i ≤ 2.0) :
    Valuation.spread_rating i = (0.0349, "B+") := by
  unfold Valuation.spread_rating
  rw [if_neg (by linarith), if_neg (by linarith), if_neg (by linarith), if_neg (by linarith), if_neg (by linarith), if_neg (by linarith), if_neg (by linarith), if_neg (by linarith), if_pos h1]

theorem Valuation.spread_rating_eq_b (i : ℚ) (h1 : 1.5 < i) (h2 : i ≤ 1.75) :
    Valuation.spread_rating i = (0.0416, "B") := by
  unfold Valuation.spread_rating
  rw [if_neg (by linarith), if_neg (by linarith), if_neg (by linarith), if_neg (by linarith), if_neg (by linarith), if_neg (by linarith), if_neg (by linarith), if_neg (by linarith), if_neg (by linarith), if_pos h1]

theorem Valuation.spread_rating_eq_b_minus (i : ℚ) (h1 : 1.25 < i) (h2 : i ≤ 1.5) :
    Valuation.spread_rating i = (0.0577, "B-") := by
  unfold Valuation.spread_rating
  rw [if_neg (by linarith), if_neg (by linarith), if_neg (by linarith), if_neg (by linarith), if_neg (by linarith), if_neg (by linarith), if_neg (by linarith), if_neg (by linarith), if_neg (by linarith), if_neg (by linarith), if_pos h1]

theorem Valuation.spread_rating_eq_ccc (i : ℚ) (h1 : 0.8 < i) (h2 : i ≤ 1.25) :
    Valuation.spread_rating i = (0.0827, "CCC") := by
  unfold Valuation.spread_rating
  rw [if_neg (by linarith), if_neg (by linarith), if_neg (by linarith), if_neg (by linarith), if_neg (by linarith), if_neg (by linarith), if_neg (by linarith), if_neg (by linarith), if_neg (by linarith), if_neg (by linarith), if_neg (by linarith), if_pos h1]

theorem Valuation.spread_rating_eq_cc (i : ℚ) (h1 : 0.65 < i) (h2 : i ≤ 0.8) :
    Valuation.spread_rating i = (0.1347, "CC") := by
  unfold Valuation.spread_rating
  rw [if_neg (by linarith), if_neg (by linarith), if_neg (by linarith), if_neg (by linarith), if_neg (by linarith), if_neg (by linarith), if_neg (by linarith), if_neg (by linarith), if_neg (by linarith), if_neg (by linarith), if_neg (by linarith), if_neg (by linarith), if_pos h1]

theorem Valuation.spread_rating_eq_d (i : ℚ) (h : i ≤ 0.65) :
    Valuation.spread_rating i = (0.2, "D") := by
  unfold Valuation.spread_rating
  rw [if_neg (by linarith), if_neg (by linarith), if_neg (by linarith), if_neg (by linarith), if_neg (by linarith), if_neg (by linarith), if_neg (by linarith), if_neg (by linarith), if_neg (by linarith), if_neg (by linarith), if_neg (by linarith), if_neg (by linarith), if_neg (by linarith)]

theorem Valuation.spread_rating_le_aaa (i : ℚ) (h : 8.5 < i) :
    (Valuation.spread_rating i).1 ≤ 0.0069 := by
  rw [Valuation.spread_rating_eq_aaa i h]

theorem Valuation.spread_rating_le_aa (i : ℚ) (h : 6.5 < i) :
    (Valuation.spread_rating i).1 ≤ 0.0085 := by
  rcases lt_or_le (8.5 : ℚ) i with h2 | h2
  · exact (Valuation.spread_rating_le_aaa i h2).trans (by norm_num)
  · rw [Valuation.spread_rating_eq_aa i h h2]

theorem Valuation.spread_rating_le_a_plus (i : ℚ) (h : 5.5 < i) :
    (Valuation.spread_rating i).1 ≤ 0.0107 := by
  rcases lt_or_le (6.5 : ℚ) i with h2 | h2
  · exact (Valuation.spread_rating_le_aa i h2).trans (by norm_num)
  · rw [Valuation.spread_rating_eq_a_plus i h h2]

theorem Valuation.spread_rating_le_a (i : ℚ) (h : 4.25 < i) :
    (Valuation.spread_rating i).1 ≤ 0.0118 := by
  rcases lt_or_le (5.5 : ℚ) i with h2 | h2
  · exact (Valuation.spread_rating_le_a_plus i h2).trans (by norm_num)
  · rw [Valuation.spread_rating_eq_a i h h2]

theorem Valuation.spread_rating_le_a_minus (i : ℚ) (h : 3.0 < i) :
    (Valuation.spread_rating i).1 ≤ 0.0133 := by
  rcases lt_or_le (4.25 : ℚ) i with h2 | h2
  · exact (Valuation.spread_rating_le_a i h2).trans (by norm_num)
  · rw [Valuation.spread_rating_eq_a_minus i h h2]

theorem Valuation.spread_rating_le_bbb (i : ℚ) (h : 2.5 < i) :
    (Valuation.spread_rating i).1 ≤ 0.0171 := by
  rcases lt_or_le (3.0 : ℚ) i with h2 | h2
  · exact (Valuation.spread_rating_le_a_minus i h2).trans (by norm_num)
  · rw [Valuation.spread_rating_eq_bbb i h h2]

theorem Valuation.spread_rating_le_bb_plus (i : ℚ) (h : 2.25 < i) :
    (Valuation.spread_rating i).1 ≤ 0.0231 := by
  rcases lt_or_le (2.5 : ℚ) i with h2 | h2
  · exact (Valuation.spread_rating_le_bbb i h2).trans (by norm_num)
  · rw [Valuation.spread_rating_eq_bb_plus i h h2]

theorem Valuation.spread_rating_le_bb (i : ℚ) (h : 2.0 < i) :
    (Valuation.spread_rating i).1 ≤ 0.0277 := by
  rcases lt_or_le (2.25 : ℚ) i with h2 | h2
  · exact (Valuation.spread_rating_le_bb_plus i h2).trans (by norm_num)
  · rw [Valuation.spread_rating_eq_bb i h h2]

theorem Valuation.spread_rating_le_b_plus (i : ℚ) (h : 1.75 < i) :
    (Valuation.spread_rating i).1 ≤ 0.0349 := by
  rcases lt_or_le (2.0 : ℚ) i with h2 | h2
  · exact (Valuation.spread_rating_le_bb i h2).trans (by norm_num)
  · rw [Valuation.spread_rating_eq_b_plus i h h2]

theorem Valuation.spread_rating_le_b (i : ℚ) (h : 1.5 < i) :
    (Valuation.spread_rating i).1 ≤ 0.0416 := by
  rcases lt_or_le (1.75 : ℚ) i with h2 | h2
  · exact (Valuation.spread_rating_le_b_plus i h2).trans (by norm_num)
  · rw [Valuation.spread_rating_eq_b i h h2]

theorem Valuation.spread_rating_le_b_minus (i : ℚ) (h : 1.25 < i) :
    (Valuation.spread_rating i).1 ≤ 0.0577 := by
  rcases lt_or_le (1.5 : ℚ) i with h2 | h2
  · exact (Valuation.spread_rating_le_b i h2).trans (by norm_num)
  · rw [Valuation.spread_rating_eq_b_minus i h h2]

theorem Valuation.spread_rating_le_ccc (i : ℚ) (h : 0.8 < i) :
    (Valuation.spread_rating i).1 ≤ 0.0827 := by
  rcases lt_or_le (1.25 : ℚ) i with h2 | h2
  · exact (Valuation.spread_rating_le_b_minus i h2).trans (by norm_num)
  · rw [Valuation.spread_rating_eq_ccc i h h2]

theorem Valuation.spread_rating_le_cc (i : ℚ) (h : 0.65 < i) :
    (Valuation.spread_rating i).1 ≤ 0.1347 := by
  rcases lt_or_le (0.8 : ℚ) i with h2 | h2
  · exact (Valuation.spread_rating_le_ccc i h2).trans (by norm_num)
  · rw [Valuation.spread_rating_eq_cc i h h2]

theorem Valuation.spread_rating_le_top (i : ℚ) :
    (Valuation.spread_rating i).1 ≤ 0.2 := by
  rcases lt_or_le (0.65 : ℚ) i with h2 | h2
  · exact (Valuation.spread_rating_le_cc i h2).trans (by norm_num)
  · rw [Valuation.spread_rating_eq_d i h2]

theorem Engine.engine_spread_rating_eq_aaa (i : ℚ) (h1 : 8.5 < i) :
    Engine.spread_rating i = (0.0069, "AAA") := by
  unfold Engine.spread_rating
  rw [if_pos h1]

theorem Engine.engine_spread_rating_eq_aa (i : ℚ) (h1 : 6.5 < i) (h2 : i ≤ 8.5) :
    Engine.spread_rating i = (0.0085, "AA") := by
  unfold Engine.spread_rating
  rw [if_neg (by linarith), if_pos h1]

theorem Engine.engine_spread_rating_eq_a_plus (i : ℚ) (h1 : 5.5 < i) (h2 : i ≤ 6.5) :
    Engine.spread_rating i = (0.0107, "A+") := by
  unfold Engine.spread_rating
  rw [if_neg (by linarith), if_neg (by linarith), if_pos h1]

theorem Engine.engine_spread_rating_eq_a (i : ℚ) (h1 : 4.25 < i) (h2 : i ≤ 5.5) :
    Engine.spread_rating i = (0.0118, "A") := by
  unfold Engine.spread_rating
  rw [if_neg (by linarith), if_neg (by linarith), if_neg (by linarith), if_pos h1]

theorem Engine.engine_spread_rating_eq_a_minus (i : ℚ) (h1 : 3.0 < i) (h2 : i ≤ 4.25) :
    Engine.spread_rating i = (0.0133, "A-") := by
  unfold Engine.spread_rating
  rw [if_neg (by linarith), if_neg (by linarith), if_neg (by linarith), if_neg (by linarith), if_pos h1]

theorem Engine.engine_spread_rating_eq_bbb (i : ℚ) (h1 : 2.5 < i) (h2 : i ≤ 3.0) :
    Engine.spread_rating i = (0.0171, "BBB") := by
  unfold Engine.spread_rating
  rw [if_neg (by linarith), if_neg (by linarith), if_neg (by linarith), if_neg (by linarith), if_neg (by linarith), if_pos h1]

theorem Engine.engine_spread_rating_eq_bb_plus (i : ℚ) (h1 : 2.25 < i) (h2 : i ≤ 2.5) :
    Engine.spread_rating i = (0.0231, "BB+") := by
  unfold Engine.spread_rating
  rw [if_neg (by linarith), if_neg (by linarith), if_neg (by linarith), if_neg (by linarith), if_neg (by linarith), if_neg (by linarith), if_pos h1]

theorem Engine.engine_spread_rating_eq_bb (i : ℚ) (h1 : 2.0 < i) (h2 : i ≤ 2.25) :
    Engine.spread_rating i = (0.0277, "BB") := by
  unfold Engine.spread_rating
  rw [if_neg (by linarith), if_neg (by linarith), if_neg (by linarith), if_neg (by linarith), if_neg (by linarith), if_neg (by linarith), if_neg (by linarith), if_pos h1]

theorem Engine.engine_spread_rating_eq_b_plus (i : ℚ) (h1 : 1.75 < i) (h2 : i ≤ 2.0) :
    Engine.spread_rating i = (0.0349, "B+") := by
  unfold Engine.spread_rating
  rw [if_neg (by linarith), if_neg (by linarith), if_neg (by linarith), if_neg (by linarith), if_neg (by linarith), if_neg (by linarith), if_neg (by linarith), if_neg (by linarith), if_pos h1]

theorem Engine.engine_spread_rating_eq_b (i : ℚ) (h1 : 1.5 < i) (h2 : i ≤ 1.75) :
    Engine.spread_rating i = (0.0416, "B") := by
  unfold Engine.spread_rating
  rw [if_neg (by linarith), if_neg (by linarith), if_neg (by linarith), if_neg (by linarith), if_neg (by linarith), if_neg (by linarith), if_neg (by linarith), if_neg (by linarith), if_neg (by linarith), if_pos h1]

theorem Engine.engine_spread_rating_eq_b_minus (i : ℚ) (h1 : 1.25 < i) (h2 : i ≤ 1.5) :
    Engine.spread_rating i = (0.0577, "B-") := by
  unfold Engine.spread_rating
  rw [if_neg (by linarith), if_neg (by linarith), if_neg (by linarith), if_neg (by linarith), if_neg (by linarith), if_neg (by linarith), if_neg (by linarith), if_neg (by linarith), if_neg (by linarith), if_neg (by linarith), if_pos h1]

theorem Engine.engine_spread_rating_eq_ccc (i : ℚ) (h1 : 0.8 < i) (h2 : i ≤ 1.25) :
    Engine.spread_rating i = (0.0827, "CCC") := by
  unfold Engine.spread_rating
  rw [if_neg (by linarith), if_neg (by linarith), if_neg (by linarith), if_neg (by linarith), if_neg (by linarith), if_neg (by linarith), if_neg (by linarith), if_neg (by linarith), if_neg (by linarith), if_neg (by linarith), if_neg (by linarith), if_pos h1]

theorem Engine.engine_spread_rating_eq_d (i : ℚ) (h : i ≤ 0.8) :
    Engine.spread_rating i = (0.2, "D") := by
  unfold Engine.spread_rating
  rw [if_neg (by linarith), if_neg (by linarith), if_neg (by linarith), if_neg (by linarith), if_neg (by linarith), if_neg (by linarith), if_neg (by linarith), if_neg (by linarith), if_neg (by linarith), if_neg (by linarith), if_neg (by linarith), if_neg (by linarith)]

theorem Engine.engine_spread_rating_le_aaa (i : ℚ) (h : 8.5 < i) :
    (Engine.spread_rating i).1 ≤ 0.0069 := by
  rw [Engine.engine_spread_rating_eq_aaa i h]

theorem Engine.engine_spread_rating_le_aa (i : ℚ) (h : 6.5 < i) :
    (Engine.spread_rating i).1 ≤ 0.0085 := by
  rcases lt_or_le (8.5 : ℚ) i with h2 | h2
  · exact (Engine.engine_spread_rating_le_aaa i h2).trans (by norm_num)
  · rw [Engine.engine_spread_rating_eq_aa i h h2]

theorem Engine.engine_spread_rating_le_a_plus (i : ℚ) (h : 5.5 < i) :
    (Engine.spread_rating i).1 ≤ 0.0107 := by
  rcases lt_or_le (6.5 : ℚ) i with h2 | h2
  · exact (Engine.engine_spread_rating_le_aa i h2).trans (by norm_num)
  · rw [Engine.engine_spread_rating_eq_a_plus i h h2]

theorem Engine.engine_spread_rating_le_a (i : ℚ) (h : 4.25 < i) :
    (Engine.spread_rating i).1 ≤ 0.0118 := by
  rcases lt_or_le (5.5 : ℚ) i with h2 | h2
  · exact (Engine.engine_spread_rating_le_a_plus i h2).trans (by norm_num)
  · rw [Engine.engine_spread_rating_eq_a i h h2]

theorem Engine.engine_spread_rating_le_a_minus (i : ℚ) (h : 3.0 < i) :
    (Engine.spread_rating i).1 ≤ 0.0133 := by
  rcases lt_or_le (4.25 : ℚ) i with h2 | h2
  · exact (Engine.engine_spread_rating_le_a i h2).trans (by norm_num)
  · rw [Engine.engine_spread_rating_eq_a_minus i h h2]

theorem Engine.engine_spread_rating_le_bbb (i : ℚ) (h : 2.5 < i) :
    (Engine.spread_rating i).1 ≤ 0.0171 := by
  rcases lt_or_le (3.0 : ℚ) i with h2 | h2
  · exact (Engine.engine_spread_rating_le_a_minus i h2).trans (by norm_num)
  · rw [Engine.engine_spread_rating_eq_bbb i h h2]

theorem Engine.engine_spread_rating_le_bb_plus (i : ℚ) (h : 2.25 < i) :
    (Engine.spread_rating i).1 ≤ 0.0231 := by
  rcases lt_or_le (2.5 : ℚ) i with h2 | h2
  · exact (Engine.engine_spread_rating_le_bbb i h2).trans (by norm_num)
  · rw [Engine.engine_spread_rating_eq_bb_plus i h h2]

theorem Engine.engine_spread_rating_le_bb (i : ℚ) (h : 2.0 < i) :
    (Engine.spread_rating i).1 ≤ 0.0277 := by
  rcases lt_or_le (2.25 : ℚ) i with h2 | h2
  · exact (Engine.engine_spread_rating_le_bb_plus i h2).trans (by norm_num)
  · rw [Engine.engine_spread_rating_eq_bb i h h2]

theorem Engine.engine_spread_rating_le_b_plus (i : ℚ) (h : 1.75 < i) :
    (Engine.spread_rating i).1 ≤ 0.0349 := by
  rcases lt_or_le (2.0 : ℚ) i with h2 | h2
  · exact (Engine.engine_spread_rating_le_bb i h2).trans (by norm_num)
  · rw [Engine.engine_spread_rating_eq_b_plus i h h2]

theorem Engine.engine_spread_rating_le_b (i : ℚ) (h : 1.5 < i) :
    (Engine.spread_rating i).1 ≤ 0.0416 := by
  rcases lt_or_le (1.75 : ℚ) i with h2 | h2
  · exact (Engine.engine_spread_rating_le_b_plus i h2).trans (by norm_num)
  · rw [Engine.engine_spread_rating_eq_b i h h2]

theorem Engine.engine_spread_rating_le_b_minus (i : ℚ) (h : 1.25 < i) :
    (Engine.spread_rating i).1 ≤ 0.0577 := by
  rcases lt_or_le (1.5 : ℚ) i with h2 | h2
  · exact (Engine.engine_spread_rating_le_b i h2).trans (by norm_num)
  · rw [Engine.engine_spread_rating_eq_b_minus i h h2]

theorem Engine.engine_spread_rating_le_ccc (i : ℚ) (h : 0.8 < i) :
    (Engine.spread_rating i).1 ≤ 0.0827 := by
  rcases lt_or_le (1.25 : ℚ) i with h2 | h2
  · exact (Engine.engine_spread_rating_le_b_minus i h2).trans (by norm_num)
  · rw [Engine.engine_spread_rating_eq_ccc i h h2]

theorem Engine.engine_spread_rating_le_top (i : ℚ) :
    (Engine.spread_rating i).1 ≤ 0.2 := by
  rcases lt_or_le (0.8 : ℚ) i with h2 | h2
  · exact (Engine.engine_spread_rating_le_ccc i h2).trans (by norm_num)
  · rw [Engine.engine_spread_rating_eq_d i h2]


/-! ### Rounding lemma -/

theorem py_round2_neg {x : ℚ} (hx : x < -1/200) : py_round2 x < 0 := by
  have hy : x * 100 < -1/2 := by linarith
  have hfl : round_half_even (x * 100) ≤ -1 := by
    unfold round_half_even
    dsimp only
    have hle : ((⌊x * 100⌋ : ℤ) : ℚ) ≤ x * 100 := Int.floor_le _
    split_ifs with ha hb hc
    · have h1 : ((⌊x * 100⌋ : ℤ) : ℚ) < 0 :=
        lt_trans (lt_of_le_of_lt hle hy) (by norm_num)
      have h2 : ⌊x * 100⌋ < 0 := by exact_mod_cast h1
      omega
    · have h1 : ((⌊x * 100⌋ : ℤ) : ℚ) < -1 := by linarith [not_lt.mp ha]
      have h2 : ⌊x * 100⌋ < -1 := by exact_mod_cast h1
      omega
    · have h12 : x * 100 - ⌊x * 100⌋ = 1/2 :=
        le_antisymm (not_lt.mp hb) (not_lt.mp ha)
      have h1 : ((⌊x * 100⌋ : ℤ) : ℚ) < -1 := by linarith
      have h2 : ⌊x * 100⌋ < -1 := by exact_mod_cast h1
      omega
    · have h12 : x * 100 - ⌊x * 100⌋ = 1/2 :=
        le_antisymm (not_lt.mp hb) (not_lt.mp ha)
      have h1 : ((⌊x * 100⌋ : ℤ) : ℚ) < -1 := by linarith
      have h2 : ⌊x * 100⌋ < -1 := by exact_mod_cast h1
      omega
  unfold py_round2
  have hc : ((round_half_even (x * 100) : ℤ) : ℚ) ≤ -1 := by exact_mod_cast hfl
  exact div_neg_of_neg_of_pos (lt_of_le_of_lt hc (by norm_num)) (by norm_num)

/-! ### List-counting and percentile-rank lemmas -/

theorem filter_pair_length_le (p q : ℚ → Bool) (xs : List ℚ)
    (hpq : ∀ x, ¬(p x = true ∧ q x = true)) :
    (xs.filter p).length + (xs.filter q).length ≤ xs.length := by
  induction xs with
  | nil => simp
  | cons a t ih =>
      rw [List.filter_cons, List.filter_cons]
      by_cases hp : p a = true
      · have hq : ¬ q a = true := fun hq => hpq a ⟨hp, hq⟩
        rw [if_pos hp, if_neg hq]
        simp only [List.length_cons]
        omega
      · rw [if_neg hp]
        by_cases hq : q a = true
        · rw [if_pos hq]
          simp only [List.length_cons]
          omega
        · rw [if_neg hq]
          simp only [List.length_cons]
          omega

theorem cnt_eq_pos (v : ℚ) (xs : List ℚ) (h : v ∈ xs) :
    0 < ModelEngine.cnt_eq v xs := by
  unfold ModelEngine.cnt_eq
  have hm : v ∈ xs.filter fun x => decide (x = v) :=
    List.mem_filter.mpr ⟨h, by simp⟩
  exact List.length_pos.mpr (List.ne_nil_of_mem hm)

theorem cnt_lt_add_cnt_eq_le (v : ℚ) (xs : List ℚ) :
    ModelEngine.cnt_lt v xs + ModelEngine.cnt_eq v xs ≤ xs.length := by
  unfold ModelEngine.cnt_lt ModelEngine.cnt_eq
  apply filter_pair_length_le
  intro x hx
  obtain ⟨h1, h2⟩ := hx
  have h1q : x < v := of_decide_eq_true h1
  have h2q : x = v := of_decide_eq_true h2
  subst h2q
  exact lt_irrefl x h1q

theorem cnt_gt_add_cnt_eq_le (v : ℚ) (xs : List ℚ) :
    ModelEngine.cnt_gt v xs + ModelEngine.cnt_eq v xs ≤ xs.length := by
  unfold ModelEngine.cnt_gt ModelEngine.cnt_eq
  apply filter_pair_length_le
  intro x hx
  obtain ⟨h1, h2⟩ := hx
  have h1q : v < x := of_decide_eq_true h1
  have h2q : x = v := of_decide_eq_true h2
  subst h2q
  exact lt_irrefl x h1q

theorem rank_pct_bounds_aux (c1 c2 n : ℕ) (h1 : 0 < c2) (h2 : c1 + c2 ≤ n) :
    0 < ((c1 : ℚ) + ((c2 : ℚ) + 1) / 2) / (n : ℚ)
    ∧ ((c1 : ℚ) + ((c2 : ℚ) + 1) / 2) / (n : ℚ) ≤ 1 := by
  have hn : 0 < n := by omega
  have hnq : (0 : ℚ) < n := by exact_mod_cast hn
  have hc2 : (1 : ℚ) ≤ c2 := by exact_mod_cast h1
  have hc1 : (0 : ℚ) ≤ c1 := Nat.cast_nonneg c1
  have hs : (c1 : ℚ) + c2 ≤ n := by exact_mod_cast h2
  constructor
  · apply div_pos (by linarith) hnq
  · rw [div_le_one hnq]
    linarith

theorem rank_pct_asc_bounds (v : ℚ) (xs : List ℚ) (h : v ∈ xs) :
    0 < ModelEngine.rank_pct_asc v xs ∧ ModelEngine.rank_pct_asc v xs ≤ 1 := by
  unfold ModelEngine.rank_pct_asc ModelEngine.rank_asc
  exact rank_pct_bounds_aux _ _ _ (cnt_eq_pos v xs h) (cnt_lt_add_cnt_eq_le v xs)

theorem rank_pct_desc_bounds (v : ℚ) (xs : List ℚ) (h : v ∈ xs) :
    0 < ModelEngine.rank_pct_desc v xs ∧ ModelEngine.rank_pct_desc v xs ≤ 1 := by
  unfold ModelEngine.rank_pct_desc ModelEngine.rank_desc
  exact rank_pct_bounds_aux _ _ _ (cnt_eq_pos v xs h) (cnt_gt_add_cnt_eq_le v xs)

/-! ### Constant-rate lemmas for the `engine.py` projector -/

theorem growth_const (p : Engine.DamodaranGinzuValuation)
    (hg : p.g_high = p.g_stable) (y : ℕ) : Engine.growth p y = p.g_stable := by
  unfold Engine.growth
  split_ifs with h
  · exact hg
  · rw [hg]
    ring

theorem wacc_const (p : Engine.DamodaranGinzuValuation)
    (hw : p.wacc_high = p.wacc_stable) (y : ℕ) : Engine.wacc p y = p.wacc_stable := by
  unfold Engine.wacc
  split_ifs with h
  · exact hw
  · rw [hw]
    ring

theorem rev_pow (p : Engine.DamodaranGinzuValuation)
    (hg : p.g_high = p.g_stable) (y : ℕ) :
    Engine.rev p y = p.rev_0 * (1 + p.g_stable) ^ y := by
  induction y with
  | zero => simp [Engine.rev]
  | succ n ih =>
      rw [show Engine.rev p (n+1) = Engine.rev p n * (1 + Engine.growth p (n+1)) from rfl,
        ih, growth_const p hg]
      ring

theorem margin_const (p : Engine.DamodaranGinzuValuation)
    (hm : p.target_margin = p.ebit_0 / p.rev_0) (y : ℕ) :
    Engine.margin p y = p.ebit_0 / p.rev_0 := by
  unfold Engine.margin
  rw [hm]
  ring

theorem tax_const (p : Engine.DamodaranGinzuValuation)
    (ht : p.tax_initial = 1/4) (y : ℕ) : Engine.tax_rate p y = 1/4 := by
  unfold Engine.tax_rate
  rw [ht]
  norm_num

theorem cum_discount_pow (p : Engine.DamodaranGinzuValuation)
    (hw : p.wacc_high = p.wacc_stable) (y : ℕ) :
    Engine.cum_discount p y = (1 / (1 + p.wacc_stable)) ^ y := by
  induction y with
  | zero => simp [Engine.cum_discount]
  | succ n ih =>
      rw [show Engine.cum_discount p (n+1)
            = Engine.cum_discount p n / (1 + Engine.wacc p (n+1)) from rfl,
        ih, wacc_const p hw, pow_succ, div_eq_mul_inv, one_div]

theorem fcff_geom (p : Engine.DamodaranGinzuValuation)
    (hg : p.g_high = p.g_stable) (hm : p.target_margin = p.ebit_0 / p.rev_0)
    (ht : p.tax_initial = 1/4) (y : ℕ) :
    Engine.fcff p (y+1)
      = p.rev_0 * (1 + p.g_stable) ^ y
        * (p.ebit_0 / p.rev_0 * (3/4) * (1 + p.g_stable)
            - p.g_stable / p.sales_to_cap) := by
  unfold Engine.fcff Engine.ebit_after_tax Engine.ebit Engine.reinvestment
  rw [margin_const p hm, tax_const p ht,
    show (y+1) - 1 = y from rfl, rev_pow p hg, rev_pow p hg]
  rw [div_eq_mul_inv, div_eq_mul_inv, div_eq_mul_inv]
  ring

theorem pv_sum_closed (p : Engine.DamodaranGinzuValuation)
    (hg : p.g_high = p.g_stable) (hw : p.wacc_high = p.wacc_stable)
    (hm : p.target_margin = p.ebit_0 / p.rev_0) (ht : p.tax_initial = 1/4)
    (hw1 : 1 + p.wacc_stable ≠ 0) (hwg : p.wacc_stable ≠ p.g_stable) (n : ℕ) :
    Engine.pv_fcff_sum p n
      = Engine.fcff p 1 * (1 - ((1 + p.g_stable) / (1 + p.wacc_stable)) ^ n)
        / (p.wacc_stable - p.g_stable) := by
  have hsub : p.wacc_stable - p.g_stable ≠ 0 := sub_ne_zero.mpr hwg
  induction n with
  | zero => simp [Engine.pv_fcff_sum]
  | succ m ih =>
      rw [show Engine.pv_fcff_sum p (m+1)
            = Engine.pv_fcff_sum p m + Engine.fcff p (m+1) * Engine.cum_discount p (m+1)
          from rfl,
        ih, fcff_geom p hg hm ht m, cum_discount_pow p hw,
        show Engine.fcff p 1
            = p.rev_0 * (1 + p.g_stable) ^ 0
              * (p.ebit_0 / p.rev_0 * (3/4) * (1 + p.g_stable)
                  - p.g_stable / p.sales_to_cap)
          from fcff_geom p hg hm ht 0]
      field_simp
      ring

/-! ### The claims -/

/-- C4: for every pair of rationals `(ebit, interest_expense)` (and any other
arguments), `calculate_synthetic_wacc` in `src/logic/valuation.py` computes
`ICR = ebit / interest_expense` when `interest_expense > 0` and otherwise
assigns the sentinel `ICR = 100`, and returns exactly one `(rating, spread)`
pair per the 14-tier table: the returned spread/ICR/rating components always
come from the table lookup, and the ICR falls in exactly one of the 14
disjoint bands, each pinning the returned pair.  The function is total by
construction (its only division is guarded by `interest_expense > 0`). -/
theorem synthetic_rating_classifier (ebit ie d mc tx rf : ℚ) :
    (Valuation.calculate_synthetic_wacc ebit ie d mc tx rf).2
      = ((Valuation.spread_rating (Valuation.icr_of ebit ie)).1,
          Valuation.icr_of ebit ie,
          (Valuation.spread_rating (Valuation.icr_of ebit ie)).2)
    ∧ (0 < ie → Valuation.icr_of ebit ie = ebit / ie)
    ∧ (ie ≤ 0 → Valuation.icr_of ebit ie = 100)
    ∧ ((8.5 < Valuation.icr_of ebit ie
          ∧ Valuation.spread_rating (Valuation.icr_of ebit ie) = (0.0069, "AAA"))
      ∨ (6.5 < Valuation.icr_of ebit ie ∧ Valuation.icr_of ebit ie ≤ 8.5
          ∧ Valuation.spread_rating (Valuation.icr_of ebit ie) = (0.0085, "AA"))
      ∨ (5.5 < Valuation.icr_of ebit ie ∧ Valuation.icr_of ebit ie ≤ 6.5
          ∧ Valuation.spread_rating (Valuation.icr_of ebit ie) = (0.0107, "A+"))
      ∨ (4.25 < Valuation.icr_of ebit ie ∧ Valuation.icr_of ebit ie ≤ 5.5
          ∧ Valuation.spread_rating (Valuation.icr_of ebit ie) = (0.0118, "A"))
      ∨ (3.0 < Valuation.icr_of ebit ie ∧ Valuation.icr_of ebit ie ≤ 4.25
          ∧ Valuation.spread_rating (Valuation.icr_of ebit ie) = (0.0133, "A-"))
      ∨ (2.5 < Valuation.icr_of ebit ie ∧ Valuation.icr_of ebit ie ≤ 3.0
          ∧ Valuation.spread_rating (Valuation.icr_of ebit ie) = (0.0171, "BBB"))
      ∨ (2.25 < Valuation.icr_of ebit ie ∧ Valuation.icr_of ebit ie ≤ 2.5
          ∧ Valuation.spread_rating (Valuation.icr_of ebit ie) = (0.0231, "BB+"))
      ∨ (2.0 < Valuation.icr_of ebit ie ∧ Valuation.icr_of ebit ie ≤ 2.25
          ∧ Valuation.spread_rating (Valuation.icr_of ebit ie) = (0.0277, "BB"))
      ∨ (1.75 < Valuation.icr_of ebit ie ∧ Valuation.icr_of ebit ie ≤ 2.0
          ∧ Valuation.spread_rating (Valuation.icr_of ebit ie) = (0.0349, "B+"))
      ∨ (1.5 < Valuation.icr_of ebit ie ∧ Valuation.icr_of ebit ie ≤ 1.75
          ∧ Valuation.spread_rating (Valuation.icr_of ebit ie) = (0.0416, "B"))
      ∨ (1.25 < Valuation.icr_of ebit ie ∧ Valuation.icr_of ebit ie ≤ 1.5
          ∧ Valuation.spread_rating (Valuation.icr_of ebit ie) = (0.0577, "B-"))
      ∨ (0.8 < Valuation.icr_of ebit ie ∧ Valuation.icr_of ebit ie ≤ 1.25
          ∧ Valuation.spread_rating (Valuation.icr_of ebit ie) = (0.0827, "CCC"))
      ∨ (0.65 < Valuation.icr_of ebit ie ∧ Valuation.icr_of ebit ie ≤ 0.8
          ∧ Valuation.spread_rating (Valuation.icr_of ebit ie) = (0.1347, "CC"))
      ∨ (Valuation.icr_of ebit ie ≤ 0.65
          ∧ Valuation.spread_rating (Valuation.icr_of ebit ie) = (0.2, "D"))) := by
  refine ⟨?_, ?_, ?_, ?_⟩
  · unfold Valuation.calculate_synthetic_wacc
    dsimp only
    split_ifs <;> rfl
  · intro h
    unfold Valuation.icr_of
    rw [if_pos h]
  · intro h
    unfold Valuation.icr_of
    rw [if_neg (not_lt.mpr h)]
  · rcases lt_or_le (8.5 : ℚ) (Valuation.icr_of ebit ie) with h1 | h1
    · exact Or.inl ⟨h1, Valuation.spread_rating_eq_aaa _ h1⟩
    rcases lt_or_le (6.5 : ℚ) (Valuation.icr_of ebit ie) with h2 | h2
    · exact Or.inr (Or.inl ⟨h2, h1, Valuation.spread_rating_eq_aa _ h2 h1⟩)
    rcases lt_or_le (5.5 : ℚ) (Valuation.icr_of ebit ie) with h3 | h3
    · exact Or.inr (Or.inr (Or.inl ⟨h3, h2, Valuation.spread_rating_eq_a_plus _ h3 h2⟩))
    rcases lt_or_le (4.25 : ℚ) (Valuation.icr_of ebit ie) with h4 | h4
    · exact Or.inr (Or.inr (Or.inr (Or.inl ⟨h4, h3, Valuation.spread_rating_eq_a _ h4 h3⟩)))
    rcases lt_or_le (3.0 : ℚ) (Valuation.icr_of ebit ie) with h5 | h5
    · exact Or.inr (Or.inr (Or.inr (Or.inr (Or.inl ⟨h5, h4, Valuation.spread_rating_eq_a_minus _ h5 h4⟩))))
    rcases lt_or_le (2.5 : ℚ) (Valuation.icr_of ebit ie) with h6 | h6
    · exact Or.inr (Or.inr (Or.inr (Or.inr (Or.inr (Or.inl ⟨h6, h5, Valuation.spread_rating_eq_bbb _ h6 h5⟩)))))
    rcases lt_or_le (2.25 : ℚ) (Valuation.icr_of ebit ie) with h7 | h7
    · exact Or.inr (Or.inr (Or.inr (Or.inr (Or.inr (Or.inr (Or.inl ⟨h7, h6, Valuation.spread_rating_eq_bb_plus _ h7 h6⟩))))))
    rcases lt_or_le (2.0 : ℚ) (Valuation.icr_of ebit ie) with h8 | h8
    · exact Or.inr (Or.inr (Or.inr (Or.inr (Or.inr (Or.inr (Or.inr (Or.inl ⟨h8, h7, Valuation.spread_rating_eq_bb _ h8 h7⟩)))))))
    rcases lt_or_le (1.75 : ℚ) (Valuation.icr_of ebit ie) with h9 | h9
    · exact Or.inr (Or.inr (Or.inr (Or.inr (Or.inr (Or.inr (Or.inr (Or.inr (Or.inl ⟨h9, h8, Valuation.spread_rating_eq_b_plus _ h9 h8⟩))))))))
    rcases lt_or_le (1.5 : ℚ) (Valuation.icr_of ebit ie) with h10 | h10
    · exact Or.inr (Or.inr (Or.inr (Or.inr (Or.inr (Or.inr (Or.inr (Or.inr (Or.inr (Or.inl ⟨h10, h9, Valuation.spread_rating_eq_b _ h10 h9⟩)))))))))
    rcases lt_or_le (1.25 : ℚ) (Valuation.icr_of ebit ie) with h11 | h11
    · exact Or.inr (Or.inr (Or.inr (Or.inr (Or.inr (Or.inr (Or.inr (Or.inr (Or.inr (Or.inr (Or.inl ⟨h11, h10, Valuation.spread_rating_eq_b_minus _ h11 h10⟩))))))))))
    rcases lt_or_le (0.8 : ℚ) (Valuation.icr_of ebit ie) with h12 | h12
    · exact Or.inr (Or.inr (Or.inr (Or.inr (Or.inr (Or.inr (Or.inr (Or.inr (Or.inr (Or.inr (Or.inr (Or.inl ⟨h12, h11, Valuation.spread_rating_eq_ccc _ h12 h11⟩)))))))))))
    rcases lt_or_le (0.65 : ℚ) (Valuation.icr_of ebit ie) with h13 | h13
    · exact Or.inr (Or.inr (Or.inr (Or.inr (Or.inr (Or.inr (Or.inr (Or.inr (Or.inr (Or.inr (Or.inr (Or.inr (Or.inl ⟨h13, h12, Valuation.spread_rating_eq_cc _ h13 h12⟩))))))))))))
    exact Or.inr (Or.inr (Or.inr (Or.inr (Or.inr (Or.inr (Or.inr (Or.inr (Or.inr (Or.inr (Or.inr (Or.inr (Or.inr ⟨h13, Valuation.spread_rating_eq_d _ h13⟩))))))))))))

/-- Witness for C4: a company with EBIT 2 and interest expense 1 gets
`ICR = 2/1`, and one with zero interest expense gets the sentinel 100. -/
theorem synthetic_rating_classifier_witness :
    Valuation.icr_of 2 1 = 2 / 1 ∧ Valuation.icr_of (-3) 0 = 100 :=
  ⟨(synthetic_rating_classifier 2 1 0 1 0 0).2.1 (by norm_num),
   (synthetic_rating_classifier (-3) 0 0 1 0 0).2.2.1 (by norm_num)⟩

/-- C5: in both classifier variants the default spread is monotone
non-decreasing as the ICR decreases: a lower ICR never gets a strictly
smaller spread. -/
theorem spread_monotone (i₁ i₂ : ℚ) (h : i₁ ≤ i₂) :
    (Valuation.spread_rating i₂).1 ≤ (Valuation.spread_rating i₁).1
    ∧ (Engine.spread_rating i₂).1 ≤ (Engine.spread_rating i₁).1 := by
  constructor
  · rcases lt_or_le (8.5 : ℚ) i₁ with h1 | h1
    · rw [Valuation.spread_rating_eq_aaa i₁ h1]
      exact Valuation.spread_rating_le_aaa i₂ (by linarith)
    rcases lt_or_le (6.5 : ℚ) i₁ with h2 | h2
    · rw [Valuation.spread_rating_eq_aa i₁ h2 h1]
      exact Valuation.spread_rating_le_aa i₂ (by linarith)
    rcases lt_or_le (5.5 : ℚ) i₁ with h3 | h3
    · rw [Valuation.spread_rating_eq_a_plus i₁ h3 h2]
      exact Valuation.spread_rating_le_a_plus i₂ (by linarith)
    rcases lt_or_le (4.25 : ℚ) i₁ with h4 | h4
    · rw [Valuation.spread_rating_eq_a i₁ h4 h3]
      exact Valuation.spread_rating_le_a i₂ (by linarith)
    rcases lt_or_le (3.0 : ℚ) i₁ with h5 | h5
    · rw [Valuation.spread_rating_eq_a_minus i₁ h5 h4]
      exact Valuation.spread_rating_le_a_minus i₂ (by linarith)
    rcases lt_or_le (2.5 : ℚ) i₁ with h6 | h6
    · rw [Valuation.spread_rating_eq_bbb i₁ h6 h5]
      exact Valuation.spread_rating_le_bbb i₂ (by linarith)
    rcases lt_or_le (2.25 : ℚ) i₁ with h7 | h7
    · rw [Valuation.spread_rating_eq_bb_plus i₁ h7 h6]
      exact Valuation.spread_rating_le_bb_plus i₂ (by linarith)
    rcases lt_or_le (2.0 : ℚ) i₁ with h8 | h8
    · rw [Valuation.spread_rating_eq_bb i₁ h8 h7]
      exact Valuation.spread_rating_le_bb i₂ (by linarith)
    rcases lt_or_le (1.75 : ℚ) i₁ with h9 | h9
    · rw [Valuation.spread_rating_eq_b_plus i₁ h9 h8]
      exact Valuation.spread_rating_le_b_plus i₂ (by linarith)
    rcases lt_or_le (1.5 : ℚ) i₁ with h10 | h10
    · rw [Valuation.spread_rating_eq_b i₁ h10 h9]
      exact Valuation.spread_rating_le_b i₂ (by linarith)
    rcases lt_or_le (1.25 : ℚ) i₁ with h11 | h11
    · rw [Valuation.spread_rating_eq_b_minus i₁ h11 h10]
      exact Valuation.spread_rating_le_b_minus i₂ (by linarith)
    rcases lt_or_le (0.8 : ℚ) i₁ with h12 | h12
    · rw [Valuation.spread_rating_eq_ccc i₁ h12 h11]
      exact Valuation.spread_rating_le_ccc i₂ (by linarith)
    rcases lt_or_le (0.65 : ℚ) i₁ with h13 | h13
    · rw [Valuation.spread_rating_eq_cc i₁ h13 h12]
      exact Valuation.spread_rating_le_cc i₂ (by linarith)
    rw [Valuation.spread_rating_eq_d i₁ h13]
    exact Valuation.spread_rating_le_top i₂
  · rcases lt_or_le (8.5 : ℚ) i₁ with h1 | h1
    · rw [Engine.engine_spread_rating_eq_aaa i₁ h1]
      exact Engine.engine_spread_rating_le_aaa i₂ (by linarith)
    rcases lt_or_le (6.5 : ℚ) i₁ with h2 | h2
    · rw [Engine.engine_spread_rating_eq_aa i₁ h2 h1]
      exact Engine.engine_spread_rating_le_aa i₂ (by linarith)
    rcases lt_or_le (5.5 : ℚ) i₁ with h3 | h3
    · rw [Engine.engine_spread_rating_eq_a_plus i₁ h3 h2]
      exact Engine.engine_spread_rating_le_a_plus i₂ (by linarith)
    rcases lt_or_le (4.25 : ℚ) i₁ with h4 | h4
    · rw [Engine.engine_spread_rating_eq_a i₁ h4 h3]
      exact Engine.engine_spread_rating_le_a i₂ (by linarith)
    rcases lt_or_le (3.0 : ℚ) i₁ with h5 | h5
    · rw [Engine.engine_spread_rating_eq_a_minus i₁ h5 h4]
      exact Engine.engine_spread_rating_le_a_minus i₂ (by linarith)
    rcases lt_or_le (2.5 : ℚ) i₁ with h6 | h6
    · rw [Engine.engine_spread_rating_eq_bbb i₁ h6 h5]
      exact Engine.engine_spread_rating_le_bbb i₂ (by linarith)
    rcases lt_or_le (2.25 : ℚ) i₁ with h7 | h7
    · rw [Engine.engine_spread_rating_eq_bb_plus i₁ h7 h6]
      exact Engine.engine_spread_rating_le_bb_plus i₂ (by linarith)
    rcases lt_or_le (2.0 : ℚ) i₁ with h8 | h8
    · rw [Engine.engine_spread_rating_eq_bb i₁ h8 h7]
      exact Engine.engine_spread_rating_le_bb i₂ (by linarith)
    rcases lt_or_le (1.75 : ℚ) i₁ with h9 | h9
    · rw [Engine.engine_spread_rating_eq_b_plus i₁ h9 h8]
      exact Engine.engine_spread_rating_le_b_plus i₂ (by linarith)
    rcases lt_or_le (1.5 : ℚ) i₁ with h10 | h10
    · rw [Engine.engine_spread_rating_eq_b i₁ h10 h9]
      exact Engine.engine_spread_rating_le_b i₂ (by linarith)
    rcases lt_or_le (1.25 : ℚ) i₁ with h11 | h11
    · rw [Engine.engine_spread_rating_eq_b_minus i₁ h11 h10]
      exact Engine.engine_spread_rating_le_b_minus i₂ (by linarith)
    rcases lt_or_le (0.8 : ℚ) i₁ with h12 | h12
    · rw [Engine.engine_spread_rating_eq_ccc i₁ h12 h11]
      exact Engine.engine_spread_rating_le_ccc i₂ (by linarith)
    rw [Engine.engine_spread_rating_eq_d i₁ h12]
    exact Engine.engine_spread_rating_le_top i₂

/-- Witness for C5 at ICR values 1 and 2: spreads 4.16% versus 2.77%. -/
theorem spread_monotone_witness :
    (Valuation.spread_rating 2).1 ≤ (Valuation.spread_rating 1).1
    ∧ (Engine.spread_rating 2).1 ≤ (Engine.spread_rating 1).1 :=
  spread_monotone 1 2 (by norm_num)

/-- C6: in both variants, whenever `market_cap + total_debt = 0` the
cost-of-capital calculator returns the fallback WACC 0.08 exactly,
regardless of every other input. -/
theorem wacc_fallback_zero_capital (ebit ie d mc tx rf b : ℚ)
    (h : mc + d = 0) :
    (Valuation.calculate_synthetic_wacc ebit ie d mc tx rf).1 = 0.08
    ∧ (Engine.calculate_synthetic_wacc ebit ie d mc tx rf b).1 = 0.08 := by
  constructor
  · unfold Valuation.calculate_synthetic_wacc
    dsimp only
    rw [if_pos h]
  · unfold Engine.calculate_synthetic_wacc
    dsimp only
    rw [if_pos h]

/-- Witness for C6: market cap 7 and debt −7 (sum zero) with arbitrary
other inputs produce WACC 0.08 in both variants. -/
theorem wacc_fallback_zero_capital_witness :
    (Valuation.calculate_synthetic_wacc 5 2 (-7) 7 (1/4) (1/25)).1 = 0.08
    ∧ (Engine.calculate_synthetic_wacc 5 2 (-7) 7 (1/4) (1/25) 2).1 = 0.08 :=
  wacc_fallback_zero_capital 5 2 (-7) 7 (1/4) (1/25) 2 (by norm_num)

/-- C9: the `valuation.py` cost-of-capital function takes no beta argument:
its cost of equity is always `risk_free_rate + 1.1 × 0.05`, the full WACC
decomposes with that hard-coded cost of equity, and — viewed as a (constant)
function of the firm's true beta — its output is the same for any two
betas. -/
theorem wacc_independent_of_beta (ebit ie d mc tx rf b₁ b₂ : ℚ)
    (h : mc + d ≠ 0) :
    Valuation.cost_of_equity rf = rf + 1.1 * 0.05
    ∧ (Valuation.calculate_synthetic_wacc ebit ie d mc tx rf).1
        = (rf + 1.1 * 0.05) * (mc / (mc + d))
          + (rf + (Valuation.spread_rating (Valuation.icr_of ebit ie)).1) * (1 - tx)
            * (d / (mc + d))
    ∧ (fun _ : ℚ => Valuation.calculate_synthetic_wacc ebit ie d mc tx rf) b₁
        = (fun _ : ℚ => Valuation.calculate_synthetic_wacc ebit ie d mc tx rf) b₂ := by
  refine ⟨rfl, ?_, rfl⟩
  unfold Valuation.calculate_synthetic_wacc Valuation.cost_of_equity
    Valuation.beta Valuation.equity_risk_premium
  dsimp only
  rw [if_neg h]

/-- Witness for C9 at concrete inputs (market cap 10, debt 5, betas 0.3 and
2.9). -/
theorem wacc_independent_of_beta_witness :
    Valuation.cost_of_equity (1/25) = 1/25 + 1.1 * 0.05
    ∧ (Valuation.calculate_synthetic_wacc 6 2 5 10 (1/4) (1/25)).1
        = (1/25 + 1.1 * 0.05) * (10 / (10 + 5))
          + (1/25 + (Valuation.spread_rating (Valuation.icr_of 6 2)).1) * (1 - 1/4)
            * (5 / (10 + 5))
    ∧ (fun _ : ℚ => Valuation.calculate_synthetic_wacc 6 2 5 10 (1/4) (1/25)) 0.3
        = (fun _ : ℚ => Valuation.calculate_synthetic_wacc 6 2 5 10 (1/4) (1/25)) 2.9 :=
  wacc_independent_of_beta 6 2 5 10 (1/4) (1/25) 0.3 2.9 (by norm_num)

/-- C10: the two classifier variants compute the same ICR, and they agree on
`(spread, rating)` everywhere except the band `0.65 < ICR ≤ 0.8`, where
`valuation.py` returns `CC`/0.1347 and `engine.py` returns `D`/0.2. -/
theorem rating_variants_agree_except_cc_band (ebit ie : ℚ) :
    Engine.icr_of ebit ie = Valuation.icr_of ebit ie
    ∧ (0.65 < Valuation.icr_of ebit ie ∧ Valuation.icr_of ebit ie ≤ 0.8 →
        Valuation.spread_rating (Valuation.icr_of ebit ie) = (0.1347, "CC")
        ∧ Engine.spread_rating (Valuation.icr_of ebit ie) = (0.2, "D"))
    ∧ (¬(0.65 < Valuation.icr_of ebit ie ∧ Valuation.icr_of ebit ie ≤ 0.8) →
        Valuation.spread_rating (Valuation.icr_of ebit ie)
          = Engine.spread_rating (Valuation.icr_of ebit ie)) := by
  refine ⟨rfl, ?_, ?_⟩
  · generalize Valuation.icr_of ebit ie = i
    rintro ⟨hl, hu⟩
    exact ⟨Valuation.spread_rating_eq_cc i hl hu, Engine.engine_spread_rating_eq_d i hu⟩
  · generalize Valuation.icr_of ebit ie = i
    intro h
    rcases lt_or_le (8.5 : ℚ) i with h1 | h1
    · rw [Valuation.spread_rating_eq_aaa i h1, Engine.engine_spread_rating_eq_aaa i h1]
    rcases lt_or_le (6.5 : ℚ) i with h2 | h2
    · rw [Valuation.spread_rating_eq_aa i h2 h1, Engine.engine_spread_rating_eq_aa i h2 h1]
    rcases lt_or_le (5.5 : ℚ) i with h3 | h3
    · rw [Valuation.spread_rating_eq_a_plus i h3 h2, Engine.engine_spread_rating_eq_a_plus i h3 h2]
    rcases lt_or_le (4.25 : ℚ) i with h4 | h4
    · rw [Valuation.spread_rating_eq_a i h4 h3, Engine.engine_spread_rating_eq_a i h4 h3]
    rcases lt_or_le (3.0 : ℚ) i with h5 | h5
    · rw [Valuation.spread_rating_eq_a_minus i h5 h4, Engine.engine_spread_rating_eq_a_minus i h5 h4]
    rcases lt_or_le (2.5 : ℚ) i with h6 | h6
    · rw [Valuation.spread_rating_eq_bbb i h6 h5, Engine.engine_spread_rating_eq_bbb i h6 h5]
    rcases lt_or_le (2.25 : ℚ) i with h7 | h7
    · rw [Valuation.spread_rating_eq_bb_plus i h7 h6, Engine.engine_spread_rating_eq_bb_plus i h7 h6]
    rcases lt_or_le (2.0 : ℚ) i with h8 | h8
    · rw [Valuation.spread_rating_eq_bb i h8 h7, Engine.engine_spread_rating_eq_bb i h8 h7]
    rcases lt_or_le (1.75 : ℚ) i with h9 | h9
    · rw [Valuation.spread_rating_eq_b_plus i h9 h8, Engine.engine_spread_rating_eq_b_plus i h9 h8]
    rcases lt_or_le (1.5 : ℚ) i with h10 | h10
    · rw [Valuation.spread_rating_eq_b i h10 h9, Engine.engine_spread_rating_eq_b i h10 h9]
    rcases lt_or_le (1.25 : ℚ) i with h11 | h11
    · rw [Valuation.spread_rating_eq_b_minus i h11 h10, Engine.engine_spread_rating_eq_b_minus i h11 h10]
    rcases lt_or_le (0.8 : ℚ) i with h12 | h12
    · rw [Valuation.spread_rating_eq_ccc i h12 h11, Engine.engine_spread_rating_eq_ccc i h12 h11]
    rcases lt_or_le (0.65 : ℚ) i with h13 | h13
    · exact absurd ⟨h13, by linarith⟩ h
    · rw [Valuation.spread_rating_eq_d i h13, Engine.engine_spread_rating_eq_d i (by linarith)]

unseal Rat.ofScientific Rat.add Rat.mul Rat.sub Rat.inv in
/-- C1 counterexample: a valuation run with positive revenue (100) and
positive shares (1) whose equity value is −50: `run_valuation` returns the
value per share −50, not `max(0, equity/shares) = 0` — the claimed clamp
does not exist in the code. -/
theorem negative_value_surfaced_cex :
    0 < neg_equity_inputs.rev_0 ∧ 0 < neg_equity_inputs.shares
    ∧ Valuation.run_valuation neg_equity_inputs
        = some { Value_Per_Share := -50, Equity_Value_B := 0,
                 WACC_Initial := 100, Stable_WACC := 100 }
    ∧ max 0 (Valuation.equity_value neg_equity_inputs / neg_equity_inputs.shares) = 0
    ∧ (-50 : ℚ)
        ≠ max 0 (Valuation.equity_value neg_equity_inputs / neg_equity_inputs.shares) := by
  decide

/-- C1 amended: for every valuation run with `rev_0 > 0` and nonzero shares,
the returned value per share is `equity_value / shares` rounded to two
decimals, with no clamping at zero; in particular it is strictly negative
whenever `equity_value / shares < −0.005`. -/
theorem value_per_share_unclamped (p : Valuation.DamodaranGinzuValuation)
    (h1 : 0 < p.rev_0) (h2 : p.shares ≠ 0) :
    (Valuation.run_valuation p).map Valuation.ValuationResult.Value_Per_Share
      = some (py_round2 (Valuation.equity_value p / p.shares))
    ∧ (Valuation.equity_value p / p.shares < -1/200 →
        py_round2 (Valuation.equity_value p / p.shares) < 0) := by
  constructor
  · unfold Valuation.run_valuation
    rw [if_neg (not_le.mpr h1)]
    simp only [Option.map_some']
    unfold Valuation.value_per_share
    rw [if_pos h2]
  · intro h3
    exact py_round2_neg h3

unseal Rat.ofScientific Rat.add Rat.mul Rat.sub Rat.inv in
/-- Witness for C1 amended at the negative-equity input: the run returns the
rounding of `equity/shares` and that value is negative. -/
theorem value_per_share_unclamped_witness :
    (Valuation.run_valuation neg_equity_inputs).map
        Valuation.ValuationResult.Value_Per_Share
      = some (py_round2 (Valuation.equity_value neg_equity_inputs
            / neg_equity_inputs.shares))
    ∧ py_round2 (Valuation.equity_value neg_equity_inputs
          / neg_equity_inputs.shares) < 0 :=
  ⟨(value_per_share_unclamped neg_equity_inputs (by decide) (by decide)).1,
   (value_per_share_unclamped neg_equity_inputs (by decide) (by decide)).2 (by decide)⟩

unseal Rat.ofScientific Rat.add Rat.mul Rat.sub Rat.inv in
/-- C2 counterexample: an input with `wacc_stable − g_stable = 0.001`
(inside the claimed guard band, with a nonzero terminal FCFF of 50): the
computed terminal value is `50 / 0.001 = 50000`, not the `50 / 0.05 = 1000`
the claimed substitution of a fixed 0.05 denominator would give — no guard
exists in the code. -/
theorem terminal_value_guard_missing_cex :
    near_flat_inputs.wacc_stable - near_flat_inputs.g_stable ≤ 1/1000
    ∧ 0 < near_flat_inputs.wacc_stable - near_flat_inputs.g_stable
    ∧ Valuation.terminal_fcff near_flat_inputs = 50
    ∧ Valuation.terminal_value near_flat_inputs = 50000
    ∧ Valuation.terminal_value near_flat_inputs
        ≠ Valuation.terminal_fcff near_flat_inputs / (5/100) := by
  decide

/-- C2 amended: the terminal-value computation divides by
`wacc_stable − g_stable` unconditionally; for every input inside the claimed
guard band (`0 < wacc_stable − g_stable ≤ 0.001`) with nonzero terminal
FCFF, the result differs from what the claimed fixed 0.05 denominator would
produce.  (At `wacc_stable = g_stable` the Python code raises
`ZeroDivisionError` rather than substituting anything.) -/
theorem terminal_value_unguarded (p : Valuation.DamodaranGinzuValuation)
    (h0 : 0 < p.wacc_stable - p.g_stable)
    (h1 : p.wacc_stable - p.g_stable ≤ 1/1000)
    (h2 : Valuation.terminal_fcff p ≠ 0) :
    Valuation.terminal_value p
      = Valuation.terminal_fcff p / (p.wacc_stable - p.g_stable)
    ∧ Valuation.terminal_value p ≠ Valuation.terminal_fcff p / (5/100) := by
  refine ⟨rfl, ?_⟩
  unfold Valuation.terminal_value
  intro heq
  rw [div_eq_div_iff (ne_of_gt h0) (by norm_num : (5/100 : ℚ) ≠ 0)] at heq
  have h5 : (5/100 : ℚ) = p.wacc_stable - p.g_stable := mul_left_cancel₀ h2 heq
  linarith

unseal Rat.ofScientific Rat.add Rat.mul Rat.sub Rat.inv in
/-- Witness for C2 amended at the near-flat input. -/
theorem terminal_value_unguarded_witness :
    Valuation.terminal_value near_flat_inputs
        = Valuation.terminal_fcff near_flat_inputs
          / (near_flat_inputs.wacc_stable - near_flat_inputs.g_stable)
    ∧ Valuation.terminal_value near_flat_inputs
        ≠ Valuation.terminal_fcff near_flat_inputs / (5/100) :=
  terminal_value_unguarded near_flat_inputs (by decide) (by decide) (by decide)

unseal Rat.ofScientific Rat.add Rat.mul Rat.sub Rat.inv in
/-- C3 counterexample: positive revenue (100) and zero shares outstanding:
`run_valuation` in `src/logic/valuation.py` does not return the `None`
sentinel — it returns a numeric result dict (with value per share 0 from
Python truthiness). -/
theorem shares_zero_numeric_result_cex :
    0 < zero_shares_inputs.rev_0 ∧ zero_shares_inputs.shares ≤ 0
    ∧ Valuation.run_valuation zero_shares_inputs
        = some { Value_Per_Share := 0, Equity_Value_B := 0,
                 WACC_Initial := 100, Stable_WACC := 100 } := by
  decide

/-- C3 amended: the `engine.py` projector returns `None` exactly as claimed
(for `rev_0 ≤ 0` or `shares ≤ 0`), but the `valuation.py` projector checks
only revenue: it returns `None` whenever `rev_0 ≤ 0`, and returns a numeric
result for every `rev_0 > 0` regardless of the sign of `shares`. -/
theorem null_sentinel_amended :
    (∀ p : Engine.DamodaranGinzuValuation, p.rev_0 ≤ 0 ∨ p.shares ≤ 0 →
        Engine.run_valuation p = none)
    ∧ (∀ p : Valuation.DamodaranGinzuValuation, p.rev_0 ≤ 0 →
        Valuation.run_valuation p = none)
    ∧ (∀ p : Valuation.DamodaranGinzuValuation, 0 < p.rev_0 →
        (Valuation.run_valuation p).isSome = true) := by
  refine ⟨?_, ?_, ?_⟩
  · intro p h
    unfold Engine.run_valuation
    rw [if_pos h]
  · intro p h
    unfold Valuation.run_valuation
    rw [if_pos h]
  · intro p h
    unfold Valuation.run_valuation
    rw [if_neg (not_le.mpr h)]
    rfl

/-- Witness for C3 amended: `None` for negative revenue or non-positive
shares in `engine.py`, `None` for negative revenue in `valuation.py`, and a
numeric (non-`None`) result for positive revenue with zero shares in
`valuation.py`. -/
theorem null_sentinel_amended_witness :
    Engine.run_valuation engine_neg_rev_inputs = none
    ∧ Engine.run_valuation engine_zero_shares_inputs = none
    ∧ Valuation.run_valuation { neg_equity_inputs with rev_0 := -3 } = none
    ∧ (Valuation.run_valuation zero_shares_inputs).isSome = true :=
  ⟨null_sentinel_amended.1 _ (Or.inl (by decide)),
   null_sentinel_amended.1 _ (Or.inr (by decide)),
   null_sentinel_amended.2.1 _ (by decide),
   null_sentinel_amended.2.2 _ (by decide)⟩

/-- Witness for C10: inside the band (ICR 0.7) the variants split CC versus
D; outside it (ICR 3) they agree. -/
theorem rating_variants_agree_except_cc_band_witness :
    (Valuation.spread_rating (Valuation.icr_of (7/10) 1) = (0.1347, "CC")
      ∧ Engine.spread_rating (Valuation.icr_of (7/10) 1) = (0.2, "D"))
    ∧ Valuation.spread_rating (Valuation.icr_of 3 1)
        = Engine.spread_rating (Valuation.icr_of 3 1) :=
  ⟨(rating_variants_agree_except_cc_band (7/10) 1).2.1
      (by norm_num [Valuation.icr_of]),
   (rating_variants_agree_except_cc_band 3 1).2.2
      (by norm_num [Valuation.icr_of])⟩

unseal Rat.ofScientific Rat.add Rat.mul Rat.sub Rat.inv in
/-- C7 counterexample: with growth_high = growth_stable and
wacc_initial = wacc_stable but a fading EBIT margin (10% now, 25% target),
the projected FCFF growth rate is not constant: FCFF₂² ≠ FCFF₁·FCFF₃
(8.625, 9.75, 10.875 grow by ≈13.0% then ≈11.5%), so the run does not reduce
to a single-stage constant-growth DCF. -/
theorem fcff_growth_not_constant_cex :
    fading_margin_inputs.g_high = fading_margin_inputs.g_stable
    ∧ fading_margin_inputs.wacc_high = fading_margin_inputs.wacc_stable
    ∧ Engine.fcff fading_margin_inputs 2 * Engine.fcff fading_margin_inputs 2
        ≠ Engine.fcff fading_margin_inputs 1 * Engine.fcff fading_margin_inputs 3 := by
  decide

/-- C7 amended: when growth_high = growth_stable = g and
wacc_initial = wacc_stable = w, **and additionally** the margin and tax-rate
fades are degenerate (`target_margin = ebit_0/rev_0` and
`tax_initial = 0.25`, the marginal rate the engine fades to), the projected
growth and discount rates are constant, FCFF grows at the constant rate g,
and the equity value equals the single-stage growing-perpetuity closed form
over the 10-year horizon, FCFF₁·(1 − ((1+g)/(1+w))¹⁰)/(w−g), plus the same
discounted terminal value and net-cash adjustment. -/
theorem single_stage_closed_form (p : Engine.DamodaranGinzuValuation)
    (hg : p.g_high = p.g_stable) (hw : p.wacc_high = p.wacc_stable)
    (hm : p.target_margin = p.ebit_0 / p.rev_0) (ht : p.tax_initial = 1/4)
    (hw1 : 1 + p.wacc_stable ≠ 0) (hwg : p.wacc_stable ≠ p.g_stable) :
    (∀ y, Engine.growth p y = p.g_stable)
    ∧ (∀ y, Engine.wacc p y = p.wacc_stable)
    ∧ (∀ y, Engine.fcff p (y+2) = Engine.fcff p (y+1) * (1 + p.g_stable))
    ∧ Engine.equity_value p
        = Engine.fcff p 1 * (1 - ((1 + p.g_stable) / (1 + p.wacc_stable)) ^ 10)
            / (p.wacc_stable - p.g_stable)
          + Engine.terminal_value p * Engine.cum_discount p 10 + p.cash - p.debt := by
  refine ⟨growth_const p hg, wacc_const p hw, ?_, ?_⟩
  · intro y
    rw [fcff_geom p hg hm ht (y+1), fcff_geom p hg hm ht y]
    ring
  · unfold Engine.equity_value Engine.pv_terminal
    rw [pv_sum_closed p hg hw hm ht hw1 hwg 10]

/-- Witness for C7 amended at the single-stage input (g = 0, w = 1, constant
50% margin, 25% tax): the equity value equals the closed form. -/
theorem single_stage_closed_form_witness :
    Engine.equity_value single_stage_inputs
      = Engine.fcff single_stage_inputs 1
          * (1 - ((1 + single_stage_inputs.g_stable)
              / (1 + single_stage_inputs.wacc_stable)) ^ 10)
          / (single_stage_inputs.wacc_stable - single_stage_inputs.g_stable)
        + Engine.terminal_value single_stage_inputs
          * Engine.cum_discount single_stage_inputs 10
        + single_stage_inputs.cash - single_stage_inputs.debt :=
  (single_stage_closed_form single_stage_inputs rfl rfl
    (by norm_num [single_stage_inputs]) rfl
    (by norm_num [single_stage_inputs]) (by norm_num [single_stage_inputs])).2.2.2

/-- C8: for every (non-empty) scoring table and every row in it, the
TOTAL_SCORE is exactly 0.40·value_score + 0.40·trend_score +
0.20·quality_score, and it lies in [0, 100]. -/
theorem total_score_formula_and_bounds (rows : List ModelEngine.Row)
    (r : ModelEngine.Row) (hr : r ∈ rows) :
    ModelEngine.TOTAL_SCORE r rows
      = 0.40 * ModelEngine.value_score r rows
        + 0.40 * ModelEngine.trend_score r rows
        + 0.20 * ModelEngine.quality_score r rows
    ∧ 0 ≤ ModelEngine.TOTAL_SCORE r rows
    ∧ ModelEngine.TOTAL_SCORE r rows ≤ 100 := by
  obtain ⟨hv1, hv2⟩ := rank_pct_desc_bounds r.pe_ratio
    (rows.map ModelEngine.Row.pe_ratio)
    (List.mem_map_of_mem ModelEngine.Row.pe_ratio hr)
  obtain ⟨hq1, hq2⟩ := rank_pct_asc_bounds r.profit_margin
    (rows.map ModelEngine.Row.profit_margin)
    (List.mem_map_of_mem ModelEngine.Row.profit_margin hr)
  obtain ⟨ht1, ht2⟩ := rank_pct_asc_bounds r.momentum_pct
    (rows.map ModelEngine.Row.momentum_pct)
    (List.mem_map_of_mem ModelEngine.Row.momentum_pct hr)
  refine ⟨rfl, ?_, ?_⟩ <;>
    · unfold ModelEngine.TOTAL_SCORE ModelEngine.value_score
        ModelEngine.quality_score ModelEngine.trend_score
      linarith

/-- Witness for C8 at a concrete two-row table. -/
theorem total_score_formula_and_bounds_witness :
    ModelEngine.TOTAL_SCORE
        { pe_ratio := 10, profit_margin := 1/5, momentum_pct := 1/10 } two_row_table
      = 0.40 * ModelEngine.value_score
            { pe_ratio := 10, profit_margin := 1/5, momentum_pct := 1/10 } two_row_table
        + 0.40 * ModelEngine.trend_score
            { pe_ratio := 10, profit_margin := 1/5, momentum_pct := 1/10 } two_row_table
        + 0.20 * ModelEngine.quality_score
            { pe_ratio := 10, profit_margin := 1/5, momentum_pct := 1/10 } two_row_table
    ∧ 0 ≤ ModelEngine.TOTAL_SCORE
            { pe_ratio := 10, profit_margin := 1/5, momentum_pct := 1/10 } two_row_table
    ∧ ModelEngine.TOTAL_SCORE
            { pe_ratio := 10, profit_margin := 1/5, momentum_pct := 1/10 } two_row_table
        ≤ 100 :=
  total_score_formula_and_bounds two_row_table _
    (by unfold two_row_table; exact List.mem_cons_self _ _)

end QuantLab
